import Mathlib

/-!
Shallow embedding of the Dashboard Builder page of the Starklytics front end
(`src/pages/Docs.tsx`, `DashboardBuilder` component).  React state updates are
modelled as pure state transformers on `DashboardState`; the side effects of
the save / load / export handlers (toasts, persistence calls, navigation)
are modelled as explicit result records.  JavaScript numbers appearing as
grid coordinates are modelled as `Nat`, except the `y` coordinate which the
source sets to `Infinity` as an append-at-end sentinel: it is modelled as
`WithTop Nat` with `⊤` standing for `Infinity`.
-/

namespace Starklytics

/-- The five responsive breakpoints of the grid (`BREAKPOINTS` keys). -/
inductive BreakPoint where
  | lg | md | sm | xs | xxs
deriving DecidableEq

/-- `const COLS = { lg: 12, md: 10, sm: 6, xs: 4, xxs: 2 }`. -/
def cols : BreakPoint → Nat
  | .lg => 12
  | .md => 10
  | .sm => 6
  | .xs => 4
  | .xxs => 2

/-- `type WidgetType = "bar" | "pie" | "line" | "table" | "area"`. -/
inductive WidgetType where
  | bar | pie | line | table | area
deriving DecidableEq

/-- The string the source interpolates for a widget type. -/
def typeName : WidgetType → String
  | .bar => "bar"
  | .pie => "pie"
  | .line => "line"
  | .table => "table"
  | .area => "area"

/-- `aggregation?: 'sum' | 'avg' | 'count' | 'min' | 'max'`. -/
inductive Aggregation where
  | sum | avg | count | min | max
deriving DecidableEq

/-- An opaque JavaScript value appearing in query result rows and widget
`data`.  JSON-shaped values suffice for the code under study; numbers are
modelled as integers (the axis-candidate filter only inspects `typeof` and
`Number(...)` coercibility, never numeric magnitude). -/
inductive JsValue where
  | null
  | bool (b : Bool)
  | num (n : Int)
  | str (s : String)
deriving DecidableEq

/-- One row of a query result set: a JavaScript object, i.e. an ordered
association list of keys and values (`Object.keys` returns the keys in
this order). -/
abbrev Row := List (String × JsValue)

/-- One element of `savedQuery.results`: the code reads
`savedQuery.results?.[0]?.results` , so each element carries a `results`
array of rows. -/
structure ResultSet where
  results : List Row
deriving DecidableEq

/-- `interface SavedQuery { id; title; description?; query_text; results? }`. -/
structure SavedQuery where
  id : String
  title : String
  description : Option String
  query_text : String
  results : Option (List ResultSet)
deriving DecidableEq

/-- `interface VisualizationConfig { type; xAxis?; yAxis?; aggregation? }`. -/
structure VisualizationConfig where
  type : WidgetType
  xAxis : Option String
  yAxis : Option String
  aggregation : Option Aggregation
deriving DecidableEq

/-- `interface LayoutItem { i; x; y; w; h }`.  `y` is `WithTop Nat` because
`addWidget` stores the JavaScript sentinel `Infinity` there. -/
structure LayoutItem where
  i : String
  x : Nat
  y : WithTop Nat
  w : Nat
  h : Nat
deriving DecidableEq

/-- `interface Layout` : one `LayoutItem` array per breakpoint. -/
structure Layout where
  lg : List LayoutItem
  md : List LayoutItem
  sm : List LayoutItem
  xs : List LayoutItem
  xxs : List LayoutItem
deriving DecidableEq

/-- The breakpoint-indexed view of a `Layout`. -/
def Layout.atBp (l : Layout) : BreakPoint → List LayoutItem
  | .lg => l.lg
  | .md => l.md
  | .sm => l.sm
  | .xs => l.xs
  | .xxs => l.xxs

/-- `interface Widget`. -/
structure Widget where
  id : String
  type : WidgetType
  title : String
  savedQuery : Option SavedQuery
  visualConfig : Option VisualizationConfig
  x : Nat
  y : WithTop Nat
  w : Nat
  h : Nat
  data : Option JsValue
deriving DecidableEq

/-- `interface DashboardState { layouts; widgets }`. -/
structure DashboardState where
  layouts : Layout
  widgets : List Widget
deriving DecidableEq

/-- `INITIAL_LAYOUT` : all five breakpoint arrays empty. -/
def INITIAL_LAYOUT : Layout := ⟨[], [], [], [], []⟩

/-- The initial dashboard state: `{ layouts: INITIAL_LAYOUT, widgets: [] }`. -/
def initialState : DashboardState := ⟨INITIAL_LAYOUT, []⟩

/-- The widget id generated by `addWidget`:
`` `widget-${Date.now()}` `` where the `Date.now()` millisecond timestamp is
the explicit parameter `now`. -/
def widgetIdOf (now : Nat) : String := "widget-" ++ Nat.repr now

/-- The fresh widget object built by `addWidget` (its literal fields; the
optional fields are absent in the literal). -/
def newWidgetOf (now : Nat) (t : WidgetType) : Widget :=
  { id := widgetIdOf now
    type := t
    title := "New " ++ typeName t ++ " Widget"
    savedQuery := none
    visualConfig := none
    x := 0
    y := ⊤
    w := 6
    h := 4
    data := none }

/-- The layout record `addWidget` builds from the new widget. -/
def newLayoutItemOf (now : Nat) (t : WidgetType) : LayoutItem :=
  { i := (newWidgetOf now t).id
    x := (newWidgetOf now t).x
    y := (newWidgetOf now t).y
    w := (newWidgetOf now t).w
    h := (newWidgetOf now t).h }

/-- `addWidget(type)` : appends the new widget and appends one layout item per
breakpoint, the `lg` item verbatim and the others with
`w: Math.min(layout.w, COLS.<bp>)`. -/
def addWidget (now : Nat) (t : WidgetType) (prev : DashboardState) : DashboardState :=
  let lay := newLayoutItemOf now t
  { layouts :=
      { lg := prev.layouts.lg ++ [lay]
        md := prev.layouts.md ++ [{ lay with w := Nat.min lay.w (cols .md) }]
        sm := prev.layouts.sm ++ [{ lay with w := Nat.min lay.w (cols .sm) }]
        xs := prev.layouts.xs ++ [{ lay with w := Nat.min lay.w (cols .xs) }]
        xxs := prev.layouts.xxs ++ [{ lay with w := Nat.min lay.w (cols .xxs) }] }
    widgets := prev.widgets ++ [newWidgetOf now t] }

/-- A sequence of `addWidget` calls, each with its `Date.now()` timestamp,
applied in order. -/
def applyAdds : List (Nat × WidgetType) → DashboardState → DashboardState
  | [], s => s
  | c :: cs, s => applyAdds cs (addWidget c.1 c.2 s)

/-! ### Injectivity of the generated widget ids in the timestamp

`addWidget` derives the widget id from the `Date.now()` timestamp alone, so
distinct timestamps give distinct ids (and equal timestamps give equal ids).
The lemmas below prove that the decimal printer `Nat.repr` used by the string
interpolation is injective. -/

/-- Decimal value of a digit character. -/
def decDigitVal (c : Char) : Nat := c.toNat - '0'.toNat

/-- Decimal value of a most-significant-first digit string. -/
def decValue (cs : List Char) : Nat := cs.foldl (fun a c => 10 * a + decDigitVal c) 0

theorem decValue_append_singleton (cs : List Char) (c : Char) :
    decValue (cs ++ [c]) = 10 * decValue cs + decDigitVal c := by
  simp [decValue, List.foldl_append]

theorem decDigitVal_digitChar (m : Nat) (h : m < 10) :
    decDigitVal (Nat.digitChar m) = m := by
  interval_cases m <;> rfl

theorem toDigitsCore_append (fuel : Nat) :
    ∀ (n : Nat) (acc : List Char), n < fuel →
      Nat.toDigitsCore 10 fuel n acc = Nat.toDigitsCore 10 (n + 1) n [] ++ acc := by
  induction fuel using Nat.strong_induction_on with
  | _ fuel ih =>
    intro n acc hn
    match fuel with
    | 0 => omega
    | f + 1 =>
      by_cases h10 : n / 10 = 0
      · simp [Nat.toDigitsCore, h10]
      · have hdiv : n / 10 < n := Nat.div_lt_self (by omega) (by omega)
        have h1 : Nat.toDigitsCore 10 (f + 1) n acc =
            Nat.toDigitsCore 10 f (n / 10) (Nat.digitChar (n % 10) :: acc) := by
          simp [Nat.toDigitsCore, h10]
        have h2 : Nat.toDigitsCore 10 (n + 1) n [] =
            Nat.toDigitsCore 10 n (n / 10) [Nat.digitChar (n % 10)] := by
          simp [Nat.toDigitsCore, h10]
        rw [h1, h2]
        rw [ih f (by omega) (n / 10) (Nat.digitChar (n % 10) :: acc) (by omega)]
        rw [ih n (by omega) (n / 10) [Nat.digitChar (n % 10)] (by omega)]
        simp

theorem decValue_toDigits (n : Nat) : decValue (Nat.toDigits 10 n) = n := by
  induction n using Nat.strong_induction_on with
  | _ n ih =>
    by_cases h10 : n / 10 = 0
    · have hn : n < 10 := by omega
      have h1 : Nat.toDigits 10 n = [Nat.digitChar (n % 10)] := by
        simp [Nat.toDigits, Nat.toDigitsCore, h10]
      rw [h1]
      have h2 : decValue [Nat.digitChar (n % 10)] = decDigitVal (Nat.digitChar (n % 10)) := by
        simp [decValue, decDigitVal]
      rw [h2, decDigitVal_digitChar (n % 10) (Nat.mod_lt n (by omega))]
      omega
    · have hdiv : n / 10 < n := Nat.div_lt_self (by omega) (by omega)
      have h2 : Nat.toDigits 10 n =
          Nat.toDigits 10 (n / 10) ++ [Nat.digitChar (n % 10)] := by
        show Nat.toDigitsCore 10 (n + 1) n [] = _
        have h3 : Nat.toDigitsCore 10 (n + 1) n [] =
            Nat.toDigitsCore 10 n (n / 10) [Nat.digitChar (n % 10)] := by
          simp [Nat.toDigitsCore, h10]
        rw [h3, toDigitsCore_append n (n / 10) [Nat.digitChar (n % 10)] (by omega)]
        rfl
      rw [h2, decValue_append_singleton, ih (n / 10) hdiv,
        decDigitVal_digitChar (n % 10) (Nat.mod_lt n (by omega))]
      omega

theorem natRepr_inj {m n : Nat} (h : Nat.repr m = Nat.repr n) : m = n := by
  have hdata : Nat.toDigits 10 m = Nat.toDigits 10 n := by
    have := congrArg String.data h
    simpa [Nat.repr, List.asString] using this
  have := congrArg decValue hdata
  rwa [decValue_toDigits, decValue_toDigits] at this

theorem strAppend_data (a b : String) : (a ++ b).data = a.data ++ b.data := rfl

theorem widgetIdOf_inj : Function.Injective widgetIdOf := by
  intro m n h
  have hd := congrArg String.data h
  rw [widgetIdOf, widgetIdOf, strAppend_data, strAppend_data] at hd
  have hrepr : (Nat.repr m).data = (Nat.repr n).data := List.append_cancel_left hd
  exact natRepr_inj (by cases hm : Nat.repr m with
    | mk l => cases hn : Nat.repr n with
      | mk l' => simp_all)

/-! ### Invariants of `applyAdds` -/

theorem applyAdds_ids (calls : List (Nat × WidgetType)) :
    ∀ s : DashboardState,
      (applyAdds calls s).widgets.map (·.id) =
        s.widgets.map (·.id) ++ calls.map (fun c => widgetIdOf c.1) := by
  induction calls with
  | nil => intro s; simp [applyAdds]
  | cons c cs ih =>
    intro s
    rw [applyAdds, ih]
    simp [addWidget, newWidgetOf]

theorem applyAdds_layout_keys (calls : List (Nat × WidgetType)) :
    ∀ (s : DashboardState) (b : BreakPoint),
      ((applyAdds calls s).layouts.atBp b).map (·.i) =
        (s.layouts.atBp b).map (·.i) ++ calls.map (fun c => widgetIdOf c.1) := by
  induction calls with
  | nil => intro s b; simp [applyAdds]
  | cons c cs ih =>
    intro s b
    rw [applyAdds, ih]
    cases b <;> simp [addWidget, Layout.atBp, newLayoutItemOf, newWidgetOf]

theorem applyAdds_widths (calls : List (Nat × WidgetType)) :
    ∀ (s : DashboardState) (b : BreakPoint),
      (∀ it ∈ s.layouts.atBp b, it.w ≤ cols b) →
      ∀ it ∈ (applyAdds calls s).layouts.atBp b, it.w ≤ cols b := by
  induction calls with
  | nil => intro s b hs; simpa [applyAdds] using hs
  | cons c cs ih =>
    intro s b hs
    rw [applyAdds]
    refine ih _ b ?_
    intro it hit
    cases b <;>
      simp only [addWidget, Layout.atBp, List.mem_append, List.mem_singleton] at hit <;>
      rcases hit with hit | hit
    · exact hs it hit
    · subst hit; simp [newLayoutItemOf, newWidgetOf, cols]
    · exact hs it hit
    · subst hit; simp [cols]
    · exact hs it hit
    · subst hit; simp [cols]
    · exact hs it hit
    · subst hit; simp [cols]
    · exact hs it hit
    · subst hit; simp [cols]

/-- With pairwise-distinct timestamps, all widget ids are distinct. -/
theorem applyAdds_ids_nodup (calls : List (Nat × WidgetType))
    (h : (calls.map Prod.fst).Nodup) :
    ((applyAdds calls initialState).widgets.map (·.id)).Nodup := by
  rw [applyAdds_ids]
  have : calls.map (fun c => widgetIdOf c.1) = (calls.map Prod.fst).map widgetIdOf := by
    simp [List.map_map]
  rw [this]
  simpa [initialState] using h.map widgetIdOf_inj

/-- In a list without duplicates, a member is counted exactly once by the
equality filter. -/
theorem nodup_filter_eq_length {α : Type} [DecidableEq α] {l : List α} {a : α}
    (hd : l.Nodup) (ha : a ∈ l) : (l.filter (fun x => x = a)).length = 1 := by
  induction l with
  | nil => cases ha
  | cons x xs ih =>
    rcases List.mem_cons.mp ha with rfl | hmem
    · have hx : a ∉ xs := (List.nodup_cons.mp hd).1
      have hnil : xs.filter (fun y => y = a) = [] := by
        rw [List.filter_eq_nil_iff]
        intro y hy
        simp only [decide_eq_true_eq]
        exact fun hya => hx (hya ▸ hy)
      simp [List.filter, hnil]
    · have hx : x ∉ xs := (List.nodup_cons.mp hd).1
      have hxa : ¬(x = a) := fun h => hx (h ▸ hmem)
      have := ih (List.nodup_cons.mp hd).2 hmem
      simp [List.filter, hxa, this]

theorem filter_key_length (l : List LayoutItem) (a : String) :
    (l.filter (fun it => it.i = a)).length =
      ((l.map (·.i)).filter (fun x => x = a)).length := by
  induction l with
  | nil => rfl
  | cons x xs ih =>
    by_cases hx : x.i = a <;> simp [List.filter, hx, ih]

/-- C1 (amended): starting from the empty dashboard state, for any sequence of
`addWidget` calls whose `Date.now()` timestamps are pairwise distinct, every
widget has exactly one layout item carrying its id in each of the five
breakpoint arrays, and every layout item's width is at most that breakpoint's
column count.  (Without the timestamp hypothesis the id-uniqueness part
fails: two calls in the same millisecond generate the same id.) -/
theorem widget_layout_sync_of_distinct_timestamps
    (calls : List (Nat × WidgetType)) (h : (calls.map Prod.fst).Nodup) :
    (∀ w ∈ (applyAdds calls initialState).widgets, ∀ b : BreakPoint,
        (((applyAdds calls initialState).layouts.atBp b).filter
          (fun it => it.i = w.id)).length = 1) ∧
    (∀ b : BreakPoint, ∀ it ∈ (applyAdds calls initialState).layouts.atBp b,
        it.w ≤ cols b) := by
  constructor
  · intro w hw b
    rw [filter_key_length, applyAdds_layout_keys calls initialState b]
    have hids := applyAdds_ids calls initialState
    have hkeys : (initialState.layouts.atBp b).map (·.i) ++
        calls.map (fun c => widgetIdOf c.1) =
        (applyAdds calls initialState).widgets.map (·.id) := by
      rw [hids]
      cases b <;> rfl
    rw [hkeys]
    exact nodup_filter_eq_length (applyAdds_ids_nodup calls h)
      (List.mem_map_of_mem _ hw)
  · intro b it hit
    refine applyAdds_widths calls initialState b ?_ it hit
    cases b <;> simp [initialState, INITIAL_LAYOUT, Layout.atBp]

theorem widget_layout_sync_witness :
    (([((1 : Nat), WidgetType.bar), (2, WidgetType.pie)]).map Prod.fst).Nodup ∧
    ((∀ w ∈ (applyAdds [(1, .bar), (2, .pie)] initialState).widgets,
        ∀ b : BreakPoint,
        (((applyAdds [(1, .bar), (2, .pie)] initialState).layouts.atBp b).filter
          (fun it => it.i = w.id)).length = 1) ∧
     (∀ b : BreakPoint,
        ∀ it ∈ (applyAdds [(1, .bar), (2, .pie)] initialState).layouts.atBp b,
        it.w ≤ cols b)) :=
  ⟨by decide, widget_layout_sync_of_distinct_timestamps [(1, .bar), (2, .pie)] (by decide)⟩

/-- C1 counterexample: two `addWidget` calls landing in the same millisecond
(`Date.now() = 0` twice) produce a reachable state in which a widget has two
layout items carrying its id in the `lg` breakpoint array, refuting the claim
as stated over all `addWidget` sequences. -/
theorem widget_layout_sync_counterexample :
    ∃ w ∈ (applyAdds [(0, .bar), (0, .pie)] initialState).widgets,
      (((applyAdds [(0, .bar), (0, .pie)] initialState).layouts.atBp .lg).filter
        (fun it => it.i = w.id)).length = 2 := by decide

/-- C3 (amended): starting from the empty state, a sequence of `addWidget`
calls with pairwise-distinct `Date.now()` timestamps produces pairwise-distinct
widget ids (each call's id differs from every widget already present).
Without the hypothesis this fails: the id is derived from the millisecond
timestamp alone. -/
theorem addWidget_fresh_id_of_distinct_timestamps
    (calls : List (Nat × WidgetType)) (h : (calls.map Prod.fst).Nodup) :
    ((applyAdds calls initialState).widgets.map (·.id)).Nodup :=
  applyAdds_ids_nodup calls h

theorem addWidget_fresh_id_witness :
    (([((3 : Nat), WidgetType.line), (4, WidgetType.table)]).map Prod.fst).Nodup ∧
    ((applyAdds [(3, .line), (4, .table)] initialState).widgets.map (·.id)).Nodup :=
  ⟨by decide, addWidget_fresh_id_of_distinct_timestamps [(3, .line), (4, .table)] (by decide)⟩

/-- C3 counterexample: two `addWidget` calls with the same `Date.now()` value
produce two widgets with the identical id `widget-7`: the second id is not
distinct from the one already present. -/
theorem addWidget_fresh_id_counterexample :
    (applyAdds [(7, .bar), (7, .table)] initialState).widgets.map (·.id) =
      ["widget-7", "widget-7"] ∧
    ¬ ((applyAdds [(7, .bar), (7, .table)] initialState).widgets.map (·.id)).Nodup := by
  exact ⟨by decide, by decide⟩

/-- C4: for every visualization type and every state, `addWidget` (a total
function: no error condition) appends a widget with default size `w = 6`,
`h = 4`, position `x = 0` and `y = Infinity` (modelled as `⊤`), and appends to
each breakpoint's layout array exactly one item carrying the new id whose
width is `min 6 (cols b)` and whose height is the unclamped `4`. -/
theorem addWidget_defaults (now : Nat) (t : WidgetType) (s : DashboardState) :
    (addWidget now t s).widgets = s.widgets ++ [newWidgetOf now t] ∧
    (newWidgetOf now t).w = 6 ∧ (newWidgetOf now t).h = 4 ∧
    (newWidgetOf now t).x = 0 ∧ (newWidgetOf now t).y = ⊤ ∧
    (∀ b : BreakPoint, ∃ it : LayoutItem,
      (addWidget now t s).layouts.atBp b = s.layouts.atBp b ++ [it] ∧
      it.i = (newWidgetOf now t).id ∧ it.w = Nat.min 6 (cols b) ∧ it.h = 4) := by
  refine ⟨rfl, rfl, rfl, rfl, rfl, ?_⟩
  intro b
  cases b <;> exact ⟨_, rfl, rfl, rfl, rfl⟩

/-! ### Persistence: `saveDashboard` and the load-on-mount effect -/

/-- The `variant` of a toast notification. -/
inductive Variant where
  | default | destructive
deriving DecidableEq

/-- A `toast({title, description, variant})` notification. -/
structure Toast where
  title : String
  description : String
  variant : Variant
deriving DecidableEq

/-- The persisted widget shape built by `saveDashboard`:
`{id, type, title, query: savedQuery?.query_text, options: visualConfig, data}`. -/
structure PersistedWidget where
  id : String
  type : WidgetType
  title : String
  query : Option String
  options : Option VisualizationConfig
  data : Option JsValue
deriving DecidableEq

/-- The persisted dashboard record (`dashboardConfig`). -/
structure Dashboard where
  id : String
  name : String
  description : String
  layout : Layout
  widgets : List PersistedWidget
  createdAt : String
  updatedAt : String
deriving DecidableEq

/-- `widget => ({id, type, title, query: widget.savedQuery?.query_text,
options: widget.visualConfig, data: widget.data})`. -/
def persistWidget (w : Widget) : PersistedWidget :=
  { id := w.id
    type := w.type
    title := w.title
    query := w.savedQuery.map (·.query_text)
    options := w.visualConfig
    data := w.data }

/-- JavaScript truthiness test for an optional string (`undefined` and the
empty string are falsy). -/
def jsStrFalsy : Option String → Bool
  | none => true
  | some s => s = ""

/-- `a || b` on an optional string and a string default. -/
def jsStrOrElse (o : Option String) (d : String) : String :=
  match o with
  | none => d
  | some s => if s = "" then d else s

/-- Outcome of one `saveDashboard()` call.  `saved` is the record handed to
`DashboardService.saveDashboard` (`none` means the persistence layer was not
invoked), `nav` the target of a `navigate(...)` call, `stateSet` the argument
of a `setDashboardState` call; the source's `saveDashboard` never calls
`setDashboardState`, so `stateSet` is `none` on every path. -/
structure SaveResult where
  toasts : List Toast
  saved : Option Dashboard
  nav : Option String
  stateSet : Option DashboardState
deriving DecidableEq

/-- `saveDashboard()`.  `dashboardId` is the route parameter, `now` the
`Date.now()` timestamp used for a generated id, `nowIso` the
`new Date().toISOString()` stamp. -/
def saveDashboard (dashboardId : Option String) (now : Nat) (nowIso : String)
    (dashboardName dashboardDescription : String) (s : DashboardState) : SaveResult :=
  if dashboardName = "" then
    { toasts := [⟨"Error", "Please enter a dashboard name", .destructive⟩]
      saved := none
      nav := none
      stateSet := none }
  else
    let config : Dashboard :=
      { id := jsStrOrElse dashboardId ("dashboard-" ++ Nat.repr now)
        name := dashboardName
        description := dashboardDescription
        layout := s.layouts
        widgets := s.widgets.map persistWidget
        createdAt := nowIso
        updatedAt := nowIso }
    { toasts := [⟨"Success", "Dashboard saved successfully", .default⟩]
      saved := some config
      nav := if jsStrFalsy dashboardId then some ("/dashboard/" ++ config.id) else none
      stateSet := none }

/-- Outcome of the load-on-mount effect: the arguments of the
`setDashboardName` / `setDashboardDescription` / `setDashboardState` calls it
makes (`none` = the setter is not called and the state variable keeps its
current value), its toast, and any `navigate(...)` target. -/
structure LoadResult where
  nameSet : Option String
  descrSet : Option String
  stateSet : Option DashboardState
  toasts : List Toast
  nav : Option String
deriving DecidableEq

/-- The widget reconstruction performed on load: synthesizes a
`savedQuery` wrapper `{id: "query-"+id, title, query_text: query,
description: ''}` when the persisted `query` text is truthy, and resets the
cosmetic position fields to `x=0, y=0, w=6, h=4`. -/
def loadWidget (pw : PersistedWidget) : Widget :=
  { id := pw.id
    type := pw.type
    title := pw.title
    savedQuery :=
      match pw.query with
      | some q => if q = "" then none else
          some { id := "query-" ++ pw.id
                 title := pw.title
                 description := some ""
                 query_text := q
                 results := none }
      | none => none
    visualConfig := pw.options
    data := pw.data
    x := 0
    y := (0 : Nat)
    w := 6
    h := 4 }

/-- The `useEffect` body that runs on mount: when the route carries a truthy
dashboard id, fetch it from `DashboardService.getDashboardById` (modelled by
`lookup`) and either hydrate the three state variables or toast an error and
navigate to `/dashboard`. -/
def mountLoad (lookup : String → Option Dashboard) (dashboardId : Option String) :
    LoadResult :=
  if jsStrFalsy dashboardId then
    { nameSet := none, descrSet := none, stateSet := none, toasts := [], nav := none }
  else
    match lookup ((dashboardId).getD "") with
    | some d =>
        { nameSet := some d.name
          descrSet := if d.description = "" then none else some d.description
          stateSet := some { layouts := d.layout, widgets := d.widgets.map loadWidget }
          toasts := [⟨"Dashboard loaded", "Successfully loaded dashboard", .default⟩]
          nav := none }
    | none =>
        { nameSet := none
          descrSet := none
          stateSet := none
          toasts := [⟨"Error", "Dashboard not found", .destructive⟩]
          nav := some "/dashboard" }

theorem append_ne_empty_left (a r : String) (ha : a.data.length ≠ 0) :
    (a ++ r) ≠ "" := by
  intro h
  have hl := congrArg (fun s : String => s.data.length) h
  simp only [strAppend_data, List.length_append, List.length_nil] at hl
  omega

theorem jsStrOrElse_ne_empty (o : Option String) (d : String) (hd : d ≠ "") :
    jsStrOrElse o d ≠ "" := by
  cases o with
  | none => exact hd
  | some s =>
    by_cases hs : s = "" <;> simp [jsStrOrElse, hs, hd]

/-- C6: calling `saveDashboard` with an empty `dashboardName` raises exactly
the destructive validation toast, passes nothing to
`DashboardService.saveDashboard`, performs no navigation, and issues no
state update. -/
theorem saveDashboard_empty_name (dashboardId : Option String) (now : Nat)
    (nowIso descr : String) (s : DashboardState) :
    (saveDashboard dashboardId now nowIso "" descr s).saved = none ∧
    (saveDashboard dashboardId now nowIso "" descr s).nav = none ∧
    (saveDashboard dashboardId now nowIso "" descr s).stateSet = none ∧
    (saveDashboard dashboardId now nowIso "" descr s).toasts =
      [⟨"Error", "Please enter a dashboard name", .destructive⟩] :=
  ⟨rfl, rfl, rfl, rfl⟩

/-- C7: mounting with a route id for which `getDashboardById` yields nothing
raises the not-found toast, navigates to the dashboard list route, and calls
none of the three state setters. -/
theorem load_not_found (lookup : String → Option Dashboard) (i : String)
    (hi : i ≠ "") (h : lookup i = none) :
    mountLoad lookup (some i) =
      { nameSet := none
        descrSet := none
        stateSet := none
        toasts := [⟨"Error", "Dashboard not found", .destructive⟩]
        nav := some "/dashboard" } := by
  simp [mountLoad, jsStrFalsy, hi, h]

theorem load_not_found_witness :
    ("dash-1" : String) ≠ "" ∧
    mountLoad (fun _ => none) (some "dash-1") =
      { nameSet := none
        descrSet := none
        stateSet := none
        toasts := [⟨"Error", "Dashboard not found", .destructive⟩]
        nav := some "/dashboard" } :=
  ⟨by decide, load_not_found (fun _ => none) "dash-1" (by decide) rfl⟩

/-- C10: loading a dashboard persisted with an empty `description` leaves
`dashboardDescription` untouched (`setDashboardDescription` is not called)
while `dashboardName` and the dashboard state are still replaced. -/
theorem load_empty_description_frame (lookup : String → Option Dashboard)
    (i : String) (hi : i ≠ "") (d : Dashboard) (hl : lookup i = some d)
    (hd : d.description = "") :
    (mountLoad lookup (some i)).descrSet = none ∧
    (mountLoad lookup (some i)).nameSet = some d.name ∧
    (mountLoad lookup (some i)).stateSet =
      some { layouts := d.layout, widgets := d.widgets.map loadWidget } := by
  simp [mountLoad, jsStrFalsy, hi, hl, hd]

theorem load_empty_description_witness :
    ("d9" : String) ≠ "" ∧
    ((fun _ : String => some (⟨"d9", "N", "", INITIAL_LAYOUT, [], "t0", "t0"⟩ : Dashboard)) "d9"
      = some (⟨"d9", "N", "", INITIAL_LAYOUT, [], "t0", "t0"⟩ : Dashboard)) ∧
    (Dashboard.description ⟨"d9", "N", "", INITIAL_LAYOUT, [], "t0", "t0"⟩ = "") ∧
    ((mountLoad (fun _ => some ⟨"d9", "N", "", INITIAL_LAYOUT, [], "t0", "t0"⟩)
        (some "d9")).descrSet = none ∧
     (mountLoad (fun _ => some ⟨"d9", "N", "", INITIAL_LAYOUT, [], "t0", "t0"⟩)
        (some "d9")).nameSet =
          some (Dashboard.name ⟨"d9", "N", "", INITIAL_LAYOUT, [], "t0", "t0"⟩) ∧
     (mountLoad (fun _ => some ⟨"d9", "N", "", INITIAL_LAYOUT, [], "t0", "t0"⟩)
        (some "d9")).stateSet =
          some { layouts := Dashboard.layout ⟨"d9", "N", "", INITIAL_LAYOUT, [], "t0", "t0"⟩
                 widgets := (Dashboard.widgets
                   ⟨"d9", "N", "", INITIAL_LAYOUT, [], "t0", "t0"⟩).map loadWidget }) :=
  ⟨by decide, rfl, rfl,
    load_empty_description_frame (fun _ => some ⟨"d9", "N", "", INITIAL_LAYOUT, [], "t0", "t0"⟩)
      "d9" (by decide) ⟨"d9", "N", "", INITIAL_LAYOUT, [], "t0", "t0"⟩ rfl rfl⟩

/-- C2 (amended): saving a dashboard with a non-empty name and loading it back
by its id restores the name, the description (on a fresh mount whose
description starts empty), and the layouts exactly; each widget's `title`,
`type` and `visualConfig` survive, and every widget whose bound `savedQuery`
has a non-empty `query_text` comes back with the synthetic query reference
`id = "query-" ++ widgetId`, the original `query_text`, and an empty
`description`.  (A bound query with empty `query_text` is dropped on load:
the load guard tests JavaScript truthiness of the persisted query string,
hence the non-emptiness hypothesis.) -/
theorem dashboard_roundtrip (dashboardId : Option String) (now : Nat)
    (nowIso name descr : String) (s : DashboardState)
    (hname : name ≠ "")
    (hq : ∀ w ∈ s.widgets, ∀ q, w.savedQuery = some q → q.query_text ≠ "") :
    ∃ d : Dashboard,
      (saveDashboard dashboardId now nowIso name descr s).saved = some d ∧
      (mountLoad (fun j => if j = d.id then some d else none) (some d.id)).nameSet
          = some name ∧
      ((mountLoad (fun j => if j = d.id then some d else none) (some d.id)).descrSet).getD ""
          = descr ∧
      ∃ s' : DashboardState,
        (mountLoad (fun j => if j = d.id then some d else none) (some d.id)).stateSet
            = some s' ∧
        s'.layouts = s.layouts ∧
        List.Forall₂ (fun w w' =>
          w'.title = w.title ∧ w'.type = w.type ∧ w'.visualConfig = w.visualConfig ∧
          ∀ q, w.savedQuery = some q →
            ∃ q', w'.savedQuery = some q' ∧
              q'.id = "query-" ++ w.id ∧
              q'.query_text = q.query_text ∧
              q'.description = some "") s.widgets s'.widgets := by
  have hsave : (saveDashboard dashboardId now nowIso name descr s).saved =
      some { id := jsStrOrElse dashboardId ("dashboard-" ++ Nat.repr now)
             name := name
             description := descr
             layout := s.layouts
             widgets := s.widgets.map persistWidget
             createdAt := nowIso
             updatedAt := nowIso } := by
    simp [saveDashboard, hname]
  refine ⟨_, hsave, ?_⟩
  have hid : jsStrOrElse dashboardId ("dashboard-" ++ Nat.repr now) ≠ "" :=
    jsStrOrElse_ne_empty _ _ (append_ne_empty_left _ _ (by decide))
  have hmount :
      mountLoad (fun j => if j = jsStrOrElse dashboardId ("dashboard-" ++ Nat.repr now)
          then some { id := jsStrOrElse dashboardId ("dashboard-" ++ Nat.repr now)
                      name := name
                      description := descr
                      layout := s.layouts
                      widgets := s.widgets.map persistWidget
                      createdAt := nowIso
                      updatedAt := nowIso }
          else none)
        (some (jsStrOrElse dashboardId ("dashboard-" ++ Nat.repr now))) =
      { nameSet := some name
        descrSet := if descr = "" then none else some descr
        stateSet := some { layouts := s.layouts
                           widgets := (s.widgets.map persistWidget).map loadWidget }
        toasts := [⟨"Dashboard loaded", "Successfully loaded dashboard", .default⟩]
        nav := none } := by
    simp [mountLoad, jsStrFalsy, hid]
  rw [hmount]
  refine ⟨rfl, ?_, ⟨_, rfl, rfl, ?_⟩⟩
  · by_cases hdescr : descr = "" <;> simp [hdescr]
  · rw [List.forall₂_map_right_iff, List.forall₂_map_right_iff, List.forall₂_same]
    intro w hw
    refine ⟨rfl, rfl, rfl, ?_⟩
    intro q hsq
    have hqt : q.query_text ≠ "" := hq w hw q hsq
    have hsq' : (loadWidget (persistWidget w)).savedQuery =
        some { id := "query-" ++ w.id
               title := w.title
               description := some ""
               query_text := q.query_text
               results := none } := by
      simp [loadWidget, persistWidget, hsq, hqt]
    exact ⟨_, hsq', rfl, rfl, rfl⟩

theorem dashboard_roundtrip_witness :
    ("n" : String) ≠ "" ∧
    (∀ w ∈ (DashboardState.mk INITIAL_LAYOUT
        [⟨"w1", .bar, "T", some ⟨"q1", "QT", none, "SELECT 1", none⟩,
          none, 0, (0 : Nat), 6, 4, none⟩]).widgets,
      ∀ q, w.savedQuery = some q → q.query_text ≠ "") ∧
    (∃ d : Dashboard,
      (saveDashboard none 3 "t" "n" "D"
        (DashboardState.mk INITIAL_LAYOUT
          [⟨"w1", .bar, "T", some ⟨"q1", "QT", none, "SELECT 1", none⟩,
            none, 0, (0 : Nat), 6, 4, none⟩])).saved = some d ∧
      (mountLoad (fun j => if j = d.id then some d else none) (some d.id)).nameSet
          = some "n" ∧
      ((mountLoad (fun j => if j = d.id then some d else none) (some d.id)).descrSet).getD ""
          = "D" ∧
      ∃ s' : DashboardState,
        (mountLoad (fun j => if j = d.id then some d else none) (some d.id)).stateSet
            = some s' ∧
        s'.layouts = (DashboardState.mk INITIAL_LAYOUT
          [⟨"w1", .bar, "T", some ⟨"q1", "QT", none, "SELECT 1", none⟩,
            none, 0, (0 : Nat), 6, 4, none⟩]).layouts ∧
        List.Forall₂ (fun w w' =>
          w'.title = w.title ∧ w'.type = w.type ∧ w'.visualConfig = w.visualConfig ∧
          ∀ q, w.savedQuery = some q →
            ∃ q', w'.savedQuery = some q' ∧
              q'.id = "query-" ++ w.id ∧
              q'.query_text = q.query_text ∧
              q'.description = some "")
          (DashboardState.mk INITIAL_LAYOUT
            [⟨"w1", .bar, "T", some ⟨"q1", "QT", none, "SELECT 1", none⟩,
              none, 0, (0 : Nat), 6, 4, none⟩]).widgets s'.widgets) :=
  ⟨by decide,
   by
    intro w hw q hsq
    rw [List.mem_singleton] at hw
    subst hw
    injection hsq with hqq
    subst hqq
    decide,
   dashboard_roundtrip none 3 "t" "n" "D" _ (by decide)
     (by
      intro w hw q hsq
      rw [List.mem_singleton] at hw
      subst hw
      injection hsq with hqq
      subst hqq
      decide)⟩

/-- C2 counterexample: a widget bound to a saved query whose `query_text` is
the empty string loses its `savedQuery` entirely on reload (the loaded widget
has `savedQuery = none`), so the loaded `savedQuery.id` does not equal
`"query-" ++ widgetId` as the claim states for every bound query. -/
theorem dashboard_roundtrip_counterexample :
    (saveDashboard none 3 "t" "n" ""
      (DashboardState.mk INITIAL_LAYOUT
        [⟨"w1", .bar, "T", some ⟨"q1", "QT", none, "", none⟩,
          none, 0, (0 : Nat), 6, 4, none⟩])).saved =
      some ⟨"dashboard-3", "n", "", INITIAL_LAYOUT,
        [⟨"w1", .bar, "T", some "", none, none⟩], "t", "t"⟩ ∧
    ((DashboardState.mk INITIAL_LAYOUT
        [⟨"w1", .bar, "T", some ⟨"q1", "QT", none, "", none⟩,
          none, 0, (0 : Nat), 6, 4, none⟩]).widgets.map
      (fun w => w.savedQuery.isSome)) = [true] ∧
    (mountLoad
        (fun j => if j = "dashboard-3"
          then some ⟨"dashboard-3", "n", "", INITIAL_LAYOUT,
            [⟨"w1", .bar, "T", some "", none, none⟩], "t", "t"⟩
          else none)
        (some "dashboard-3")).stateSet =
      some (DashboardState.mk INITIAL_LAYOUT
        [⟨"w1", .bar, "T", none, none, 0, (0 : Nat), 6, 4, none⟩]) := by
  refine ⟨?_, rfl, ?_⟩ <;> decide

/-! ### `updateWidget` -/

/-- A `Partial<Widget>` update record.  Each field is `none` when the key is
absent from the update object; for the optional widget fields a present key
may carry `undefined` (written `some none`), which the object spread
`{...w, ...updates}` does copy over the old value. -/
structure WidgetUpdates where
  id : Option String := none
  type : Option WidgetType := none
  title : Option String := none
  savedQuery : Option (Option SavedQuery) := none
  visualConfig : Option (Option VisualizationConfig) := none
  x : Option Nat := none
  y : Option (WithTop Nat) := none
  w : Option Nat := none
  h : Option Nat := none
  data : Option (Option JsValue) := none
deriving DecidableEq

/-- The object spread `{ ...w, ...updates }`. -/
def mergeWidget (w : Widget) (u : WidgetUpdates) : Widget :=
  { id := u.id.getD w.id
    type := u.type.getD w.type
    title := u.title.getD w.title
    savedQuery := u.savedQuery.getD w.savedQuery
    visualConfig := u.visualConfig.getD w.visualConfig
    x := u.x.getD w.x
    y := u.y.getD w.y
    w := u.w.getD w.w
    h := u.h.getD w.h
    data := u.data.getD w.data }

/-- `updateWidget(id, updates)` : maps over the widgets, merging the update
into every widget whose id matches, and leaves `layouts` untouched. -/
def updateWidget (i : String) (u : WidgetUpdates) (s : DashboardState) : DashboardState :=
  { s with widgets := s.widgets.map (fun w => if w.id = i then mergeWidget w u else w) }

/-- C5: `updateWidget` leaves `layouts` untouched; positionally, a widget
whose id differs from the target is returned unchanged and a matching widget
becomes the spread merge; on the merged widget every unsupplied field keeps
its old value (in particular `type`, `savedQuery`, `visualConfig` when only
`title` is supplied) and a supplied `title` lands verbatim; and when no
widget carries the id the whole state is returned unchanged. -/
theorem updateWidget_partial_merge (i : String) (u : WidgetUpdates) (s : DashboardState) :
    (updateWidget i u s).layouts = s.layouts ∧
    List.Forall₂ (fun w w' =>
      (w.id ≠ i → w' = w) ∧ (w.id = i → w' = mergeWidget w u))
      s.widgets (updateWidget i u s).widgets ∧
    (∀ w : Widget,
      (u.title = none → (mergeWidget w u).title = w.title) ∧
      (∀ t, u.title = some t → (mergeWidget w u).title = t) ∧
      (u.type = none → (mergeWidget w u).type = w.type) ∧
      (u.savedQuery = none → (mergeWidget w u).savedQuery = w.savedQuery) ∧
      (u.visualConfig = none → (mergeWidget w u).visualConfig = w.visualConfig)) ∧
    ((∀ w ∈ s.widgets, w.id ≠ i) → updateWidget i u s = s) := by
  refine ⟨rfl, ?_, ?_, ?_⟩
  · rw [show (updateWidget i u s).widgets =
        s.widgets.map (fun w => if w.id = i then mergeWidget w u else w) from rfl]
    rw [List.forall₂_map_right_iff, List.forall₂_same]
    intro w _
    by_cases hw : w.id = i <;> simp [hw]
  · intro w
    refine ⟨?_, ?_, ?_, ?_, ?_⟩ <;> intro h
    · simp [mergeWidget, h]
    · intro ht; simp [mergeWidget, ht]
    · simp [mergeWidget, h]
    · simp [mergeWidget, h]
    · simp [mergeWidget, h]
  · intro hno
    have hmap : s.widgets.map (fun w => if w.id = i then mergeWidget w u else w)
        = s.widgets := by
      rw [List.map_congr_left (g := id) (fun a ha => by simp [hno a ha])]
      exact List.map_id _
    cases s with
    | mk l ws => simp [updateWidget] at hmap ⊢; exact hmap

theorem updateWidget_partial_merge_witness :
    (updateWidget "a"
        ⟨none, none, some "X", none, none, none, none, none, none, none⟩
        (DashboardState.mk INITIAL_LAYOUT
          [⟨"a", .pie, "Old", none, none, 0, (0 : Nat), 6, 4, none⟩])).layouts =
      (DashboardState.mk INITIAL_LAYOUT
        [⟨"a", .pie, "Old", none, none, 0, (0 : Nat), 6, 4, none⟩]).layouts ∧
    List.Forall₂ (fun w w' =>
      (w.id ≠ "a" → w' = w) ∧
      (w.id = "a" → w' = mergeWidget w
        ⟨none, none, some "X", none, none, none, none, none, none, none⟩))
      (DashboardState.mk INITIAL_LAYOUT
        [⟨"a", .pie, "Old", none, none, 0, (0 : Nat), 6, 4, none⟩]).widgets
      (updateWidget "a"
        ⟨none, none, some "X", none, none, none, none, none, none, none⟩
        (DashboardState.mk INITIAL_LAYOUT
          [⟨"a", .pie, "Old", none, none, 0, (0 : Nat), 6, 4, none⟩])).widgets ∧
    (∀ w : Widget,
      ((WidgetUpdates.mk none none (some "X") none none none none none none none).title
          = none →
        (mergeWidget w ⟨none, none, some "X", none, none, none, none, none, none, none⟩).title
          = w.title) ∧
      (∀ t, (WidgetUpdates.mk none none (some "X") none none none none none none none).title
          = some t →
        (mergeWidget w ⟨none, none, some "X", none, none, none, none, none, none, none⟩).title
          = t) ∧
      ((WidgetUpdates.mk none none (some "X") none none none none none none none).type
          = none →
        (mergeWidget w ⟨none, none, some "X", none, none, none, none, none, none, none⟩).type
          = w.type) ∧
      ((WidgetUpdates.mk none none (some "X") none none none none none none none).savedQuery
          = none →
        (mergeWidget w
            ⟨none, none, some "X", none, none, none, none, none, none, none⟩).savedQuery
          = w.savedQuery) ∧
      ((WidgetUpdates.mk none none (some "X") none none none none none none none).visualConfig
          = none →
        (mergeWidget w
            ⟨none, none, some "X", none, none, none, none, none, none, none⟩).visualConfig
          = w.visualConfig)) ∧
    ((∀ w ∈ (DashboardState.mk INITIAL_LAYOUT
        [⟨"a", .pie, "Old", none, none, 0, (0 : Nat), 6, 4, none⟩]).widgets,
        w.id ≠ "a") →
      updateWidget "a"
        ⟨none, none, some "X", none, none, none, none, none, none, none⟩
        (DashboardState.mk INITIAL_LAYOUT
          [⟨"a", .pie, "Old", none, none, 0, (0 : Nat), 6, 4, none⟩]) =
      DashboardState.mk INITIAL_LAYOUT
        [⟨"a", .pie, "Old", none, none, 0, (0 : Nat), 6, 4, none⟩]) :=
  updateWidget_partial_merge "a"
    ⟨none, none, some "X", none, none, none, none, none, none, none⟩
    (DashboardState.mk INITIAL_LAYOUT
      [⟨"a", .pie, "Old", none, none, 0, (0 : Nat), 6, 4, none⟩])

/-! ### `exportDashboard`

`JSON.stringify(dashboardData, null, 2)` is modelled up to the JSON value it
serializes: `Json` below is the abstract syntax of the emitted document, with
object fields in insertion order.  `JSON.stringify` drops `undefined`
properties (hence `optField`) and renders the `Infinity` sentinel as `null`
(hence `wtopToJson ⊤ = .null`).  Parsing the emitted text recovers exactly
this value, so claims about the parsed export are stated on it. -/

inductive Json where
  | null
  | bool (b : Bool)
  | num (n : Int)
  | str (s : String)
  | arr (xs : List Json)
  | obj (fields : List (String × Json))

/-- A present-or-absent JSON object field. -/
def optField (k : String) : Option Json → List (String × Json)
  | some j => [(k, j)]
  | none => []

def jsValueToJson : JsValue → Json
  | .null => .null
  | .bool b => .bool b
  | .num n => .num n
  | .str s => .str s

/-- A grid coordinate: `Infinity` serializes to `null`. -/
def wtopToJson (y : WithTop Nat) : Json :=
  WithTop.recTopCoe Json.null (fun k => Json.num (k : Int)) y

def rowToJson (r : Row) : Json :=
  .obj (r.map (fun kv => (kv.1, jsValueToJson kv.2)))

def resultSetToJson (rs : ResultSet) : Json :=
  .obj [("results", .arr (rs.results.map rowToJson))]

def aggName : Aggregation → String
  | .sum => "sum"
  | .avg => "avg"
  | .count => "count"
  | .min => "min"
  | .max => "max"

def visualConfigToJson (vc : VisualizationConfig) : Json :=
  .obj ([("type", .str (typeName vc.type))]
    ++ optField "xAxis" (vc.xAxis.map Json.str)
    ++ optField "yAxis" (vc.yAxis.map Json.str)
    ++ optField "aggregation" ((vc.aggregation.map aggName).map Json.str))

def savedQueryToJson (q : SavedQuery) : Json :=
  .obj ([("id", .str q.id), ("title", .str q.title)]
    ++ optField "description" (q.description.map Json.str)
    ++ [("query_text", .str q.query_text)]
    ++ optField "results"
        ((q.results.map (fun rss => rss.map resultSetToJson)).map Json.arr))

def widgetToJson (w : Widget) : Json :=
  .obj ([("id", .str w.id), ("type", .str (typeName w.type)), ("title", .str w.title)]
    ++ optField "savedQuery" (w.savedQuery.map savedQueryToJson)
    ++ optField "visualConfig" (w.visualConfig.map visualConfigToJson)
    ++ [("x", .num w.x), ("y", wtopToJson w.y), ("w", .num w.w), ("h", .num w.h)]
    ++ optField "data" (w.data.map jsValueToJson))

def layoutItemToJson (it : LayoutItem) : Json :=
  .obj [("i", .str it.i), ("x", .num it.x), ("y", wtopToJson it.y),
        ("w", .num it.w), ("h", .num it.h)]

def layoutToJson (l : Layout) : Json :=
  .obj [("lg", .arr (l.lg.map layoutItemToJson)),
        ("md", .arr (l.md.map layoutItemToJson)),
        ("sm", .arr (l.sm.map layoutItemToJson)),
        ("xs", .arr (l.xs.map layoutItemToJson)),
        ("xxs", .arr (l.xxs.map layoutItemToJson))]

/-- Outcome of `exportDashboard()` : the serialized JSON value, the download
file name handed to the anchor element, and the toast. -/
structure ExportResult where
  json : Json
  fileName : String
  toasts : List Toast

/-- `exportDashboard()` : serializes `{name, description, layouts, widgets,
rpc_endpoint}` with the full in-memory widget objects; the file name is
`` `${dashboardName || 'dashboard'}_${Date.now()}.json` ``.  `rpc` is the
`RPC_ENDPOINT` constant (environment-dependent in the source). -/
def exportDashboard (name descr : String) (s : DashboardState) (rpc : String)
    (now : Nat) : ExportResult :=
  { json := .obj [("name", .str name), ("description", .str descr),
      ("layouts", layoutToJson s.layouts),
      ("widgets", .arr (s.widgets.map widgetToJson)),
      ("rpc_endpoint", .str rpc)]
    fileName := (if name = "" then "dashboard" else name) ++ "_" ++ Nat.repr now ++ ".json"
    toasts := [⟨"Success", "Dashboard exported successfully", .default⟩] }

def objKeys : Json → List String
  | .obj fs => fs.map Prod.fst
  | _ => []

def objGet (j : Json) (k : String) : Option Json :=
  match j with
  | .obj fs => fs.lookup k
  | _ => none

/-- Extracts the string `id` property of a JSON object value. -/
def objIdString (j : Json) : Option String :=
  match objGet j "id" with
  | some (.str s) => some s
  | _ => none

/-- C8: the export serializes exactly the top-level keys `name`,
`description`, `layouts`, `widgets`, `rpc_endpoint`, its `widgets` entry is
the array of the full in-memory widget objects — same length and the same
ids in the same order as the in-memory widgets — and the download file name
is the name (or `dashboard` when the name is empty) followed by an
underscore, the timestamp, and `.json`. -/
theorem exportDashboard_shape (name descr rpc : String) (s : DashboardState)
    (now : Nat) :
    objKeys (exportDashboard name descr s rpc now).json =
      ["name", "description", "layouts", "widgets", "rpc_endpoint"] ∧
    (∃ ws : List Json,
      objGet (exportDashboard name descr s rpc now).json "widgets" =
        some (.arr ws) ∧
      ws.length = s.widgets.length ∧
      ws.map objIdString = s.widgets.map (fun w => some w.id)) ∧
    (exportDashboard name descr s rpc now).fileName =
      (if name = "" then "dashboard" else name) ++ "_" ++ Nat.repr now ++ ".json" := by
  refine ⟨rfl, ⟨s.widgets.map widgetToJson, ?_, by simp, ?_⟩, rfl⟩
  · rfl
  · rw [List.map_map]
    exact List.map_congr_left (fun w _ => rfl)

/-! ### Y-axis candidate derivation

The Y-axis `Select` filters the keys of
`savedQuery.results[0].results[0]` by
`typeof value === 'number' || !isNaN(Number(value))`.  The string branch of
the JavaScript `Number()` coercion is modelled by the ECMAScript
`StringNumericLiteral` grammar: trimmed whitespace, the empty remainder
coercing to `0`, optionally signed decimal literals with fraction and
exponent, signed `Infinity`, and unsigned hex / octal / binary literals.
`Number(null)` and `Number(boolean)` are numbers, never `NaN`. -/

def jsWhitespace (c : Char) : Bool := c = ' ' || (9 ≤ c.toNat && c.toNat ≤ 13)

def jsTrim (cs : List Char) : List Char :=
  ((cs.dropWhile jsWhitespace).reverse.dropWhile jsWhitespace).reverse

def isHexDigitChar (c : Char) : Bool :=
  c.isDigit || ('a' ≤ c && c ≤ 'f') || ('A' ≤ c && c ≤ 'F')

def isOctDigitChar (c : Char) : Bool := '0' ≤ c && c ≤ '7'

def isBinDigitChar (c : Char) : Bool := c = '0' || c = '1'

/-- An unsigned decimal literal with optional fraction and exponent:
`digits [. digits]`, `. digits`, or either followed by `(e|E)[+|-]digits`. -/
def decBodyOk (cs : List Char) : Bool :=
  let p := cs.span (fun c => !(c = 'e' || c = 'E'))
  let mantOk :=
    let q := p.1.span (fun c => c != '.')
    match q.2 with
    | [] => !q.1.isEmpty && q.1.all Char.isDigit
    | _ :: fp =>
        (!q.1.isEmpty || !fp.isEmpty) && q.1.all Char.isDigit && fp.all Char.isDigit
  let expPartOk :=
    match p.2 with
    | [] => true
    | _ :: e =>
        let e' := match e with
          | '+' :: r => r
          | '-' :: r => r
          | r => r
        !e'.isEmpty && e'.all Char.isDigit
  mantOk && expPartOk

/-- An optionally signed `Infinity` or decimal literal. -/
def signedNumericOk (cs : List Char) : Bool :=
  let body := match cs with
    | '+' :: r => r
    | '-' :: r => r
    | r => r
  body = "Infinity".data || decBodyOk body

/-- A nonempty trimmed string that `Number(...)` coerces without `NaN`. -/
def strNumericOk (cs : List Char) : Bool :=
  match cs with
  | '0' :: c :: rest =>
    if c = 'x' || c = 'X' then !rest.isEmpty && rest.all isHexDigitChar
    else if c = 'o' || c = 'O' then !rest.isEmpty && rest.all isOctDigitChar
    else if c = 'b' || c = 'B' then !rest.isEmpty && rest.all isBinDigitChar
    else signedNumericOk cs
  | _ => signedNumericOk cs

/-- `!isNaN(Number(s))` for a string `s` (the empty trimmed string coerces
to `0`). -/
def jsStringCoercesToNumber (s : String) : Bool :=
  let t := jsTrim s.data
  t.isEmpty || strNumericOk t

/-- `typeof value === 'number'`. -/
def jsTypeofNumber : JsValue → Bool
  | .num _ => true
  | _ => false

/-- `isNaN(Number(value))` : `null` and booleans coerce to numbers, a string
coerces according to the numeric-literal grammar. -/
def jsNumberIsNaN : JsValue → Bool
  | .num _ => false
  | .bool _ => false
  | .null => false
  | .str s => !jsStringCoercesToNumber s

/-- The Y-axis filter predicate of the source. -/
def yAxisKeep (v : JsValue) : Bool := jsTypeofNumber v || !jsNumberIsNaN v

/-- The filter applied at a key of the first row (`row[key]`; a missing key
would read `undefined`, which is neither a number nor coercible). -/
def yAxisKeepInRow (row : Row) (k : String) : Bool :=
  match row.lookup k with
  | some v => yAxisKeep v
  | none => false

/-- The Y-axis candidate list: the keys of the first row of the first result
set (an empty row list behaves as `{}`), filtered by numeric coercibility;
no candidates when `results` is absent or empty. -/
def yAxisCandidates (q : SavedQuery) : List String :=
  match q.results with
  | some (rs :: _) =>
      ((rs.results.headD []).map Prod.fst).filter
        (fun k => yAxisKeepInRow (rs.results.headD []) k)
  | _ => []

/-- C9: the Y-axis candidates are exactly the keys of the first row of the
first result set whose value is a number or numeric-coercible; in
particular for the row `{a: "x", b: 5, c: "3"}` the candidates are `b` and
`c`, excluding `a`. -/
theorem yAxis_candidates_numeric (q : SavedQuery) (rs : ResultSet)
    (rest : List ResultSet) (h : q.results = some (rs :: rest)) :
    yAxisCandidates q =
      ((rs.results.headD []).map Prod.fst).filter
        (fun k => yAxisKeepInRow (rs.results.headD []) k) ∧
    yAxisCandidates
      ⟨"q1", "t", none, "sql",
        some [⟨[[("a", .str "x"), ("b", .num 5), ("c", .str "3")]]⟩]⟩ =
      ["b", "c"] := by
  constructor
  · simp [yAxisCandidates, h]
  · decide

theorem yAxis_candidates_numeric_witness :
    (SavedQuery.results
        ⟨"q1", "t", none, "sql", some [⟨[[("n", JsValue.num 1)]]⟩]⟩ =
      some [⟨[[("n", JsValue.num 1)]]⟩]) ∧
    (yAxisCandidates ⟨"q1", "t", none, "sql", some [⟨[[("n", JsValue.num 1)]]⟩]⟩ =
      ((ResultSet.results ⟨[[("n", JsValue.num 1)]]⟩).headD [] |>.map Prod.fst).filter
        (fun k =>
          yAxisKeepInRow ((ResultSet.results ⟨[[("n", JsValue.num 1)]]⟩).headD []) k) ∧
     yAxisCandidates
       ⟨"q1", "t", none, "sql",
         some [⟨[[("a", .str "x"), ("b", .num 5), ("c", .str "3")]]⟩]⟩ =
       ["b", "c"]) :=
  ⟨rfl, yAxis_candidates_numeric
    ⟨"q1", "t", none, "sql", some [⟨[[("n", JsValue.num 1)]]⟩]⟩
    ⟨[[("n", JsValue.num 1)]]⟩ [] rfl⟩

end Starklytics
